import Mathlib

/-!
# Verification of the alkanes-lending contract core

Shallow embedding of the numeric and state-machine core of the
`alkanes-lending` repository:

* `src/alkanes/lending-contract/src/lib.rs` — the `LendingContract`
  responder: interest computation, token collection/refund, loan
  lifecycle transitions (init, repay, claim of defaulted collateral),
  and the `GetLoanDetails` serialization.
* `src/alkanes/lending-contract/src/math/precision.rs` — the
  high-precision interest calculator `calculate_interest_precise`.
* `src/src/tests/helper/init_pools.rs` — the reference function
  `calc_lp_balance_from_pool_init` for AMM pool initialization.

Machine integers (`u128`) are embedded as `Nat` with explicit overflow
checks against `U128MAX`; all fallible Rust functions returning
`anyhow::Result` are embedded as `Except String`.
-/

namespace AlkanesLending

/-- Largest value representable by Rust's `u128`. -/
def U128MAX : Nat := 2 ^ 128 - 1

/-- `u128::checked_mul`: `some (a * b)` unless the product leaves the
128-bit range, in which case `none`. -/
def checkedMul (a b : Nat) : Option Nat :=
  if a * b ≤ U128MAX then some (a * b) else none

/-- `u128::checked_add`: `some (a + b)` unless the sum leaves the
128-bit range, in which case `none`. -/
def checkedAdd (a b : Nat) : Option Nat :=
  if a + b ≤ U128MAX then some (a + b) else none

/-- `u128::checked_div`: division is total on `Nat`, failing only for a
zero divisor, exactly as in Rust. -/
def checkedDiv (a b : Nat) : Option Nat :=
  if b = 0 then none else some (a / b)

/-- `alkanes_support::id::AlkaneId` — an alkane (token/contract)
identifier, a pair of `u128`s. -/
structure AlkaneId where
  block : Nat
  tx : Nat
deriving DecidableEq, Repr

/-- `alkanes_support::parcel::AlkaneTransfer` — one incoming or outgoing
token transfer: an id and a `u128` amount. -/
structure AlkaneTransfer where
  id : AlkaneId
  value : Nat
deriving DecidableEq, Repr

/-- The outgoing part of `alkanes_support::response::CallResponse`:
the ordered list of transfers accumulated via `response.alkanes.pay`
and the binary `data` payload (a byte list). -/
structure CallResponse where
  alkanes : List AlkaneTransfer
  data : List Nat
deriving DecidableEq, Repr

/-- `CallResponse::default()` — empty transfers, empty data. -/
def CallResponse.default : CallResponse := ⟨[], []⟩

/-- `CallResponse::forward(&incoming)` — a response that re-emits every
incoming transfer, with empty data. -/
def CallResponse.forward (incoming : List AlkaneTransfer) : CallResponse :=
  ⟨incoming, []⟩

/-- `response.alkanes.pay(transfer)` — append one outgoing transfer. -/
def CallResponse.pay (r : CallResponse) (t : AlkaneTransfer) : CallResponse :=
  ⟨r.alkanes ++ [t], r.data⟩

-- ============ Contract constants (lib.rs) ============

def STATE_UNINITIALIZED : Nat := 0
def STATE_WAITING_FOR_CREDITOR : Nat := 1
def STATE_WAITING_FOR_DEBITOR_CLAIM : Nat := 2
def STATE_LOAN_ACTIVE_CASE1 : Nat := 3
def STATE_WAITING_FOR_DEBITOR_TAKE : Nat := 4
def STATE_LOAN_ACTIVE_CASE2 : Nat := 5
def STATE_LOAN_REPAID : Nat := 6
def STATE_LOAN_DEFAULTED : Nat := 7

/-- APR precision: 4 decimal places (`1000` = 10.00%). -/
def APR_PRECISION : Nat := 10000

/-- Blocks per year approximation: 6 · 24 · 365 = 52560. -/
def BLOCKS_PER_YEAR : Nat := 52560

-- ============ Contract storage ============

/-- The persisted storage of one `LendingContract` instance: one field
per `storage_variable!` declaration in lib.rs, plus the framework's
one-shot initialization flag consulted by `observe_initialization`
(the flag lives in the alkanes runtime, outside this repository's
sources; per the spec a second initialization fails
"already initialized"). -/
structure LoanState where
  initialized : Bool
  stateValue : Nat
  collateralToken : AlkaneId
  collateralAmount : Nat
  loanToken : AlkaneId
  loanAmount : Nat
  durationBlocks : Nat
  apr : Nat
  loanStartBlock : Nat
  repaymentDeadline : Nat
  debitor : AlkaneId
  creditor : AlkaneId
deriving DecidableEq, Repr

/-- The ambient call context the responder reads: the caller id, the
incoming transfer list, and the current block height. -/
structure Context where
  caller : AlkaneId
  incomingAlkanes : List AlkaneTransfer
  currentBlock : Nat
deriving DecidableEq, Repr

-- ============ Interest computation (lib.rs lines 180–198) ============

/-- `LendingContract::calculate_repayment_amount`: repayment =
principal + interest where
`interest = principal * apr * duration / (APR_PRECISION * BLOCKS_PER_YEAR)`,
every multiply and the final add checked.  (The Rust error strings carry
formatted expected/received values; the constant prefix is kept here.) -/
def calculate_repayment_amount (s : LoanState) : Except String Nat :=
  let principal := s.loanAmount
  let apr := s.apr
  let duration := s.durationBlocks
  match checkedMul principal apr with
  | none => .error "Overflow in interest calculation"
  | some pa =>
    match checkedMul pa duration with
    | none => .error "Overflow in interest calculation"
    | some pad =>
      match checkedDiv pad (APR_PRECISION * BLOCKS_PER_YEAR) with
      | none => .error "Division error in interest calculation"
      | some interest =>
        match checkedAdd principal interest with
        | none => .error "Overflow adding interest to principal"
        | some r => .ok r

-- ============ precision.rs ============

/-- Precision multiplier for internal calculations (1e18). -/
def PRECISION_MULTIPLIER : Nat := 1000000000000000000

/-- `math::precision::calculate_interest_precise`: computes
`principal * apr * duration` with checked multiplication, then tries the
scaled path `(numerator * 1e18) / (APR_PRECISION * BLOCKS_PER_YEAR) / 1e18`,
falling back to the unscaled division when the scaling multiply would
overflow. -/
def calculate_interest_precise (principal apr duration : Nat) :
    Except String Nat :=
  match checkedMul principal apr with
  | none => .error "Overflow in interest calculation"
  | some pa =>
    match checkedMul pa duration with
    | none => .error "Overflow in interest calculation"
    | some numerator_part =>
      let denominator := APR_PRECISION * BLOCKS_PER_YEAR
      match checkedMul numerator_part PRECISION_MULTIPLIER with
      | some scaled_numerator =>
        match checkedDiv scaled_numerator denominator with
        | none => .error "Division error"
        | some scaled_interest => .ok (scaled_interest / PRECISION_MULTIPLIER)
      | none =>
        match checkedDiv numerator_part denominator with
        | none => .error "Division error"
        | some interest => .ok interest

-- ============ Token collection (lib.rs lines 201–238) ============

/-- The loop body of `collect_incoming_tokens`: walk the incoming
transfers, accumulating the amounts whose id matches `expected`
(checked add) and paying every other transfer into the refund
response. -/
def collectLoop (expected : AlkaneId) :
    List AlkaneTransfer → Nat → List AlkaneTransfer →
    Except String (Nat × List AlkaneTransfer)
  | [], received, refunds => .ok (received, refunds)
  | t :: rest, received, refunds =>
    if t.id = expected then
      match checkedAdd received t.value with
      | none => .error "Overflow collecting tokens"
      | some r => collectLoop expected rest r refunds
    else
      collectLoop expected rest received (refunds ++ [t])

/-- `LendingContract::collect_incoming_tokens`: collects
`expected_amount` of `expected_token` from the incoming transfers,
failing "Insufficient tokens" on a shortfall, refunding every
non-matching transfer and the matched excess.  Returns the collected
amount and the refund transfers of the response. -/
def collect_incoming_tokens (expected_token : AlkaneId)
    (expected_amount : Nat) (incoming : List AlkaneTransfer) :
    Except String (Nat × List AlkaneTransfer) :=
  match collectLoop expected_token incoming 0 [] with
  | .error e => .error e
  | .ok (token_received, refunds) =>
    if token_received < expected_amount then
      .error "Insufficient tokens"
    else
      if expected_amount < token_received then
        .ok (expected_amount,
             refunds ++ [⟨expected_token, token_received - expected_amount⟩])
      else
        .ok (expected_amount, refunds)

-- ============ Contract operations (lib.rs) ============

/-- `LendingContract::init_with_loan_offer` (Case 2 Step 1, lib.rs
lines 351–391): the creditor creates a loan offer by depositing loan
tokens.  Validates the one-shot initialization flag and the parameters,
collects `loan_amount` of `loan_token`, stores the parameters, records
the creditor, and moves to `STATE_WAITING_FOR_DEBITOR_TAKE`.  The
function performs no interest-overflow validation. -/
def init_with_loan_offer (s : LoanState) (ctx : Context)
    (collateral_token : AlkaneId) (collateral_amount : Nat)
    (loan_token : AlkaneId) (loan_amount : Nat)
    (duration_blocks : Nat) (desired_apr : Nat) :
    Except String (LoanState × CallResponse) :=
  if s.initialized then .error "already initialized"
  else if collateral_amount = 0 then .error "Collateral amount cannot be zero"
  else if loan_amount = 0 then .error "Loan amount cannot be zero"
  else if duration_blocks = 0 then .error "Duration cannot be zero"
  else if collateral_token = loan_token then
    .error "Collateral and loan token cannot be the same"
  else
    match collect_incoming_tokens loan_token loan_amount ctx.incomingAlkanes with
    | .error e => .error e
    | .ok (_, refunds) =>
      .ok ({ s with
              initialized := true
              collateralToken := collateral_token
              collateralAmount := collateral_amount
              loanToken := loan_token
              loanAmount := loan_amount
              durationBlocks := duration_blocks
              apr := desired_apr
              creditor := ctx.caller
              stateValue := STATE_WAITING_FOR_DEBITOR_TAKE },
           ⟨refunds, []⟩)

/-- `LendingContract::repay_loan` (lib.rs lines 433–478): the debitor
repays an active loan.  Requires an active state, the debitor as
caller, `current_block ≤ repayment_deadline`, and enough loan tokens
attached to cover the computed repayment; marks the loan repaid, then
pays the collateral AND the full collected repayment back out in the
response. -/
def repay_loan (s : LoanState) (ctx : Context) :
    Except String (LoanState × CallResponse) :=
  if s.stateValue ≠ STATE_LOAN_ACTIVE_CASE1 ∧
     s.stateValue ≠ STATE_LOAN_ACTIVE_CASE2 then
    .error "No active loan to repay"
  else if ctx.caller ≠ s.debitor then
    .error "Only the debitor can repay the loan"
  else if s.repaymentDeadline < ctx.currentBlock then
    .error "Loan has defaulted - deadline passed"
  else
    match calculate_repayment_amount s with
    | .error e => .error e
    | .ok repayment_amount =>
      match collect_incoming_tokens s.loanToken repayment_amount
          ctx.incomingAlkanes with
      | .error e => .error e
      | .ok (_, refunds) =>
        .ok ({ s with stateValue := STATE_LOAN_REPAID },
             (CallResponse.pay
               (CallResponse.pay ⟨refunds, []⟩
                 ⟨s.collateralToken, s.collateralAmount⟩)
               ⟨s.loanToken, repayment_amount⟩))

/-- `LendingContract::claim_defaulted_collateral` (lib.rs lines
481–514): the creditor claims the collateral after default.  Requires
an active state, the creditor as caller, and
`current_block > repayment_deadline`; marks the loan defaulted,
forwards all incoming transfers and pays out the collateral. -/
def claim_defaulted_collateral (s : LoanState) (ctx : Context) :
    Except String (LoanState × CallResponse) :=
  if s.stateValue ≠ STATE_LOAN_ACTIVE_CASE1 ∧
     s.stateValue ≠ STATE_LOAN_ACTIVE_CASE2 then
    .error "No active loan to claim"
  else if ctx.caller ≠ s.creditor then
    .error "Only the creditor can claim defaulted collateral"
  else if ctx.currentBlock ≤ s.repaymentDeadline then
    .error "Loan has not defaulted yet - deadline not passed"
  else
    .ok ({ s with stateValue := STATE_LOAN_DEFAULTED },
         CallResponse.pay (CallResponse.forward ctx.incomingAlkanes)
           ⟨s.collateralToken, s.collateralAmount⟩)

-- ============ GetLoanDetails serialization (lib.rs lines 583–632) ============

/-- `u128::to_le_bytes`: the 16 little-endian bytes of a 128-bit value,
as a list of `Nat`s below 256. -/
def leBytes16 (n : Nat) : List Nat :=
  (List.range 16).map (fun i => n / 256 ^ i % 256)

/-- The `data` payload built by `LendingContract::get_loan_details`:
the state, then (when initialized) the eight parameter fields, then
(when the loan is active) the deadline and start block — each as 16
little-endian bytes. -/
def get_loan_details_data (s : LoanState) : List Nat :=
  leBytes16 s.stateValue ++
  (if s.stateValue ≠ STATE_UNINITIALIZED then
    leBytes16 s.collateralToken.block ++ leBytes16 s.collateralToken.tx ++
    leBytes16 s.collateralAmount ++
    leBytes16 s.loanToken.block ++ leBytes16 s.loanToken.tx ++
    leBytes16 s.loanAmount ++
    leBytes16 s.durationBlocks ++ leBytes16 s.apr ++
    (if s.stateValue = STATE_LOAN_ACTIVE_CASE1 ∨
        s.stateValue = STATE_LOAN_ACTIVE_CASE2 then
      leBytes16 s.repaymentDeadline ++ leBytes16 s.loanStartBlock
    else [])
  else [])

-- ============ AMM pool initialization (init_pools.rs) ============

/-- `tests::helper::init_pools::calc_lp_balance_from_pool_init`
(init_pools.rs lines 283–288), the repository's reference for the LP
shares minted by pool initialization:
`floor(sqrt(amount1 * amount2)) - MINIMUM_LIQUIDITY`, clamped to 0 when
the square root is below the floor.  `MINIMUM_LIQUIDITY` is imported
from `alkanes_runtime_pool`, which is outside these sources, so it is
taken as a parameter. -/
def calc_lp_balance_from_pool_init (MINIMUM_LIQUIDITY : Nat)
    (amount1 amount2 : Nat) : Nat :=
  if Nat.sqrt (amount1 * amount2) < MINIMUM_LIQUIDITY then 0
  else Nat.sqrt (amount1 * amount2) - MINIMUM_LIQUIDITY

/-- Modelled from the spec: the AMM pool's `Initialize(amount_a,
amount_b)` operation — the pool contract (`alkanes_runtime_pool`) is
not among these sources, only its tests are.  Per the spec it "mints
`sqrt(amount_a * amount_b)` LP shares minus a fixed `MINIMUM_LIQUIDITY`
floor" and "fails if the minted amount after subtracting the floor
would be zero or negative (INSUFFICIENT_LIQUIDITY_MINTED)". -/
def pool_initialize_minted (MINIMUM_LIQUIDITY : Nat)
    (amount_a amount_b : Nat) : Except String Nat :=
  if Nat.sqrt (amount_a * amount_b) ≤ MINIMUM_LIQUIDITY then
    .error "INSUFFICIENT_LIQUIDITY_MINTED"
  else
    .ok (Nat.sqrt (amount_a * amount_b) - MINIMUM_LIQUIDITY)

-- ============ Concrete fixtures ============

/-- Fresh (uninitialized) contract storage, as read before any call:
every scalar is zero/default. -/
def freshState : LoanState :=
  { initialized := false
    stateValue := 0
    collateralToken := ⟨0, 0⟩
    collateralAmount := 0
    loanToken := ⟨0, 0⟩
    loanAmount := 0
    durationBlocks := 0
    apr := 0
    loanStartBlock := 0
    repaymentDeadline := 0
    debitor := ⟨0, 0⟩
    creditor := ⟨0, 0⟩ }

/-- The APR used in the C1 scenario: `⌈2^128 / 10^13⌉`, chosen so that
`principal * apr` overflows `u128` for `principal = 10^13`. -/
def c1_apr : Nat := (2 ^ 128 + 10 ^ 13 - 1) / 10 ^ 13

/-- C1 call context: the creditor attaches `10^13` loan tokens. -/
def c1_ctx : Context := ⟨⟨1, 1⟩, [⟨⟨2, 4⟩, 10 ^ 13⟩], 840001⟩

/-- The offer-creation call of the C1 scenario: principal `10^13`,
APR `⌈2^128 / 10^13⌉`, duration 5256 — terms whose repayment
computation overflows. -/
def c1_result : Except String (LoanState × CallResponse) :=
  init_with_loan_offer freshState c1_ctx ⟨2, 2⟩ 1000000000 ⟨2, 4⟩ (10 ^ 13)
    5256 c1_apr

/-- C1: `init_with_loan_offer` accepts a loan offer whose repayment
amount is not computable: with `principal = 10^13` and
`apr = ⌈2^128 / 10^13⌉` the offer-creation call succeeds (storing the
terms and moving to the waiting state), and the repayment computation
on the resulting stored loan fails with the overflow error — so the
failure first arises at repayment time, not at offer creation. -/
theorem init_with_loan_offer_accepts_overflowing_terms :
    c1_result.isOk = true
  ∧ c1_result.map (fun r => r.1.stateValue) = .ok STATE_WAITING_FOR_DEBITOR_TAKE
  ∧ c1_result.map (fun r => calculate_repayment_amount r.1)
      = .ok (.error "Overflow in interest calculation") := by
  refine ⟨rfl, rfl, ?_⟩
  rfl

/-- Stored loan of the C2 scenario: the smallest positive terms,
`principal = apr = duration = 1`. -/
def c2_state : LoanState :=
  { initialized := true
    stateValue := STATE_LOAN_ACTIVE_CASE2
    collateralToken := ⟨2, 2⟩
    collateralAmount := 10
    loanToken := ⟨2, 4⟩
    loanAmount := 1
    durationBlocks := 1
    apr := 1
    loanStartBlock := 840002
    repaymentDeadline := 840003
    debitor := ⟨1, 2⟩
    creditor := ⟨1, 1⟩ }

/-- C2: for `principal = apr = duration = 1` (all strictly positive, no
overflow anywhere) the high-precision interest calculator returns
interest 0, and the contract's repayment amount equals the principal —
the scaled path truncates small interest to zero exactly like the
plain formula. -/
theorem interest_rounds_to_zero_on_small_loan :
    calculate_interest_precise 1 1 1 = .ok 0
  ∧ calculate_repayment_amount c2_state = .ok 1 := by
  exact ⟨rfl, rfl⟩

/-- Stored active loan of the C3 scenario: principal 500_000_000, APR
500 (5%), duration 5256 blocks, repayment 502_500_000. -/
def c3_state : LoanState :=
  { initialized := true
    stateValue := STATE_LOAN_ACTIVE_CASE2
    collateralToken := ⟨2, 2⟩
    collateralAmount := 1000000000
    loanToken := ⟨2, 4⟩
    loanAmount := 500000000
    durationBlocks := 5256
    apr := 500
    loanStartBlock := 840002
    repaymentDeadline := 845258
    debitor := ⟨1, 2⟩
    creditor := ⟨1, 1⟩ }

/-- C3 call context: the debitor repays before the deadline, attaching
exactly the repayment amount of loan tokens. -/
def c3_ctx : Context := ⟨⟨1, 2⟩, [⟨⟨2, 4⟩, 502500000⟩], 845000⟩

/-- C3: a successful repay pays the collateral to the caller AND pays
the full collected repayment (502_500_000 loan tokens) back out in the
same response — the repayment is not retained by the contract for a
creditor claim. -/
theorem repay_loan_pays_repayment_back_out :
    repay_loan c3_state c3_ctx =
      .ok ({ c3_state with stateValue := STATE_LOAN_REPAID },
           ⟨[⟨⟨2, 2⟩, 1000000000⟩, ⟨⟨2, 4⟩, 502500000⟩], []⟩) := by
  rfl

/-- Stored loan of the C4 boundary scenario: `principal = u128::MAX`,
`apr = duration = 1`, so the triple product fits `u128` but the final
`principal + interest` does not. -/
def c4_state : LoanState :=
  { initialized := true
    stateValue := STATE_LOAN_ACTIVE_CASE2
    collateralToken := ⟨2, 2⟩
    collateralAmount := 10
    loanToken := ⟨2, 4⟩
    loanAmount := U128MAX
    durationBlocks := 1
    apr := 1
    loanStartBlock := 840002
    repaymentDeadline := 840003
    debitor := ⟨1, 2⟩
    creditor := ⟨1, 1⟩ }

/-- C4 counterexample: with `principal = 2^128 - 1`, `apr = 1`,
`duration = 1` the product `principal * apr * duration` does not exceed
the 128-bit range, yet the repayment computation does not return
`principal + floor(...)` — the final checked addition overflows and the
call fails with "Overflow adding interest to principal". -/
theorem repayment_final_add_overflow_counterexample :
    U128MAX * 1 * 1 ≤ U128MAX
  ∧ calculate_repayment_amount c4_state
      = .error "Overflow adding interest to principal" := by
  refine ⟨by decide, ?_⟩
  rfl

-- ============ Specification of token collection ============

/-- Total incoming amount of the transfers whose id equals `tok` (the
sum the collection loop accumulates). -/
def receivedOf (tok : AlkaneId) : List AlkaneTransfer → Nat
  | [] => 0
  | t :: rest => (if t.id = tok then t.value else 0) + receivedOf tok rest

/-- The incoming transfers whose id differs from `tok`, in order (the
transfers the collection loop refunds unchanged). -/
def nonMatching (tok : AlkaneId) : List AlkaneTransfer → List AlkaneTransfer
  | [] => []
  | t :: rest =>
    if t.id = tok then nonMatching tok rest else t :: nonMatching tok rest

/-- The collection loop never fails when the total matching amount fits
`u128`, and returns the accumulated matching sum together with the
non-matching transfers appended to the refunds. -/
lemma collectLoop_eq (tok : AlkaneId) :
    ∀ (rest : List AlkaneTransfer) (acc : Nat) (refunds : List AlkaneTransfer),
      acc + receivedOf tok rest ≤ U128MAX →
      collectLoop tok rest acc refunds =
        .ok (acc + receivedOf tok rest, refunds ++ nonMatching tok rest) := by
  intro rest
  induction rest with
  | nil =>
    intro acc refunds _
    simp [collectLoop, receivedOf, nonMatching]
  | cons t rest ih =>
    intro acc refunds hov
    by_cases ht : t.id = tok
    · have hov' : acc + t.value + receivedOf tok rest ≤ U128MAX := by
        simpa [receivedOf, ht, Nat.add_assoc] using hov
      have hstep : acc + t.value ≤ U128MAX :=
        le_trans (Nat.le_add_right _ _) hov'
      simp only [collectLoop, ht, if_pos, checkedAdd, hstep, if_true]
      rw [ih (acc + t.value) refunds hov']
      simp [receivedOf, ht, nonMatching, Nat.add_assoc]
    · have hov' : acc + receivedOf tok rest ≤ U128MAX := by
        simpa [receivedOf, ht] using hov
      simp only [collectLoop, ht, if_neg, if_false]
      rw [ih acc (refunds ++ [t]) hov']
      simp [receivedOf, ht, nonMatching]

/-- Shared success/shortfall characterization of
`collect_incoming_tokens`, used by several lifecycle theorems. -/
lemma collect_incoming_tokens_eq (tok : AlkaneId) (required : Nat)
    (incoming : List AlkaneTransfer)
    (hov : receivedOf tok incoming ≤ U128MAX) :
    collect_incoming_tokens tok required incoming =
      (if receivedOf tok incoming < required then
        .error "Insufficient tokens"
      else
        .ok (required,
             nonMatching tok incoming ++
               (if required < receivedOf tok incoming then
                 [⟨tok, receivedOf tok incoming - required⟩] else []))) := by
  have h0 : (0 : Nat) + receivedOf tok incoming ≤ U128MAX := by simpa using hov
  unfold collect_incoming_tokens
  rw [collectLoop_eq tok incoming 0 [] h0]
  by_cases hlt : receivedOf tok incoming < required
  · simp [hlt]
  · by_cases hgt : required < receivedOf tok incoming
    · simp [hlt, hgt]
    · simp [hlt, hgt]

/-- C5: whenever the summed incoming amount of the expected token fits
`u128`, the collection either fails with "Insufficient tokens" (exactly
when the sum is below the required amount) or succeeds refunding
exactly `received - required` of the expected token and re-emitting
every transfer of any other token unchanged and in order — the
contract retains exactly `required` of the expected token and nothing
of any other token. -/
theorem collect_incoming_tokens_refund_spec (tok : AlkaneId)
    (required : Nat) (incoming : List AlkaneTransfer)
    (hov : receivedOf tok incoming ≤ U128MAX) :
    (receivedOf tok incoming < required →
       collect_incoming_tokens tok required incoming =
         .error "Insufficient tokens")
  ∧ (required ≤ receivedOf tok incoming →
       collect_incoming_tokens tok required incoming =
         .ok (required,
              nonMatching tok incoming ++
                (if required < receivedOf tok incoming then
                  [⟨tok, receivedOf tok incoming - required⟩] else []))) := by
  constructor
  · intro hlt
    rw [collect_incoming_tokens_eq tok required incoming hov]
    simp [hlt]
  · intro hge
    rw [collect_incoming_tokens_eq tok required incoming hov]
    simp [Nat.not_lt_of_le hge]

/-- C5 witness: a concrete call sending 3 + 4 of the expected token
`⟨2,4⟩` (5 required) and 7 of an unrelated token `⟨9,9⟩` gets back the
unrelated transfer unchanged plus the excess 2 of the expected token;
a call sending only 3 fails with "Insufficient tokens". -/
theorem collect_incoming_tokens_refund_spec_witness :
    collect_incoming_tokens ⟨2, 4⟩ 5
        [⟨⟨2, 4⟩, 3⟩, ⟨⟨9, 9⟩, 7⟩, ⟨⟨2, 4⟩, 4⟩]
      = .ok (5, [⟨⟨9, 9⟩, 7⟩, ⟨⟨2, 4⟩, 2⟩])
  ∧ collect_incoming_tokens ⟨2, 4⟩ 5 [⟨⟨2, 4⟩, 3⟩, ⟨⟨9, 9⟩, 7⟩]
      = .error "Insufficient tokens" := by
  constructor
  · have h := (collect_incoming_tokens_refund_spec ⟨2, 4⟩ 5
      [⟨⟨2, 4⟩, 3⟩, ⟨⟨9, 9⟩, 7⟩, ⟨⟨2, 4⟩, 4⟩] (by decide)).2 (by decide)
    simpa using h
  · exact (collect_incoming_tokens_refund_spec ⟨2, 4⟩ 5
      [⟨⟨2, 4⟩, 3⟩, ⟨⟨9, 9⟩, 7⟩] (by decide)).1 (by decide)

-- ============ Interest formula characterization ============

/-- `APR_PRECISION` is nonzero (discharges the `checked_div` guard). -/
lemma apr_precision_ne_zero : APR_PRECISION ≠ 0 := by decide

/-- `BLOCKS_PER_YEAR` is nonzero (discharges the `checked_div` guard). -/
lemma blocks_per_year_ne_zero : BLOCKS_PER_YEAR ≠ 0 := by decide

/-- Closed form of `calculate_repayment_amount` as nested overflow
case splits. -/
lemma calculate_repayment_amount_eq (s : LoanState) :
    calculate_repayment_amount s =
      (if s.loanAmount * s.apr ≤ U128MAX then
        if s.loanAmount * s.apr * s.durationBlocks ≤ U128MAX then
          if s.loanAmount + s.loanAmount * s.apr * s.durationBlocks /
              (APR_PRECISION * BLOCKS_PER_YEAR) ≤ U128MAX then
            .ok (s.loanAmount + s.loanAmount * s.apr * s.durationBlocks /
                  (APR_PRECISION * BLOCKS_PER_YEAR))
          else .error "Overflow adding interest to principal"
        else .error "Overflow in interest calculation"
      else .error "Overflow in interest calculation") := by
  unfold calculate_repayment_amount checkedMul checkedAdd checkedDiv
  by_cases h1 : s.loanAmount * s.apr ≤ U128MAX
  · by_cases h2 : s.loanAmount * s.apr * s.durationBlocks ≤ U128MAX
    · by_cases h3 : s.loanAmount + s.loanAmount * s.apr * s.durationBlocks /
          (APR_PRECISION * BLOCKS_PER_YEAR) ≤ U128MAX
      · simp [h1, h2, h3, apr_precision_ne_zero, blocks_per_year_ne_zero]
      · simp [h1, h2, h3, apr_precision_ne_zero, blocks_per_year_ne_zero]
    · simp [h1, h2]
  · simp [h1]

/-- C4 (amended): for every stored loan with nonzero duration, the
repayment computation returns exactly
`principal + floor(principal * apr * duration / (10000 * 52560))`
whenever `principal * apr * duration` fits `u128` AND the final sum
`principal + interest` fits `u128`; it fails with
"Overflow in interest calculation" whenever either checked
multiplication overflows, and with
"Overflow adding interest to principal" when only the final addition
overflows — never returning a silently wrapped value. -/
theorem calculate_repayment_amount_cases (s : LoanState)
    (hd : 1 ≤ s.durationBlocks) :
    (s.loanAmount * s.apr * s.durationBlocks ≤ U128MAX →
      s.loanAmount + s.loanAmount * s.apr * s.durationBlocks /
          (APR_PRECISION * BLOCKS_PER_YEAR) ≤ U128MAX →
      calculate_repayment_amount s =
        .ok (s.loanAmount + s.loanAmount * s.apr * s.durationBlocks /
              (APR_PRECISION * BLOCKS_PER_YEAR)))
  ∧ (U128MAX < s.loanAmount * s.apr * s.durationBlocks →
      calculate_repayment_amount s = .error "Overflow in interest calculation")
  ∧ (s.loanAmount * s.apr * s.durationBlocks ≤ U128MAX →
      U128MAX < s.loanAmount + s.loanAmount * s.apr * s.durationBlocks /
          (APR_PRECISION * BLOCKS_PER_YEAR) →
      calculate_repayment_amount s =
        .error "Overflow adding interest to principal") := by
  have hfit : s.loanAmount * s.apr * s.durationBlocks ≤ U128MAX →
      s.loanAmount * s.apr ≤ U128MAX := fun h =>
    le_trans (Nat.le_mul_of_pos_right _ (Nat.lt_of_lt_of_le Nat.zero_lt_one hd)) h
  refine ⟨?_, ?_, ?_⟩
  · intro h2 h3
    have h1 := hfit h2
    rw [calculate_repayment_amount_eq]
    rw [if_pos h1, if_pos h2, if_pos h3]
  · intro h2
    rw [calculate_repayment_amount_eq]
    by_cases h1 : s.loanAmount * s.apr ≤ U128MAX
    · rw [if_pos h1, if_neg (Nat.not_le_of_lt h2)]
    · rw [if_neg h1]
  · intro h2 h3
    have h1 := hfit h2
    rw [calculate_repayment_amount_eq]
    rw [if_pos h1, if_pos h2, if_neg (Nat.not_le_of_lt h3)]

/-- C4 witness: the amended characterization at the concrete loan
(principal 500_000_000, APR 500, duration 5256) gives repayment
502_500_000, and at the boundary loan `c4_state` the final addition
overflows. -/
theorem calculate_repayment_amount_cases_witness :
    calculate_repayment_amount c3_state = .ok 502500000
  ∧ calculate_repayment_amount c4_state
      = .error "Overflow adding interest to principal" := by
  constructor
  · have h := (calculate_repayment_amount_cases c3_state (by decide)).1
      (by decide) (by decide)
    simpa using h
  · have h := (calculate_repayment_amount_cases c4_state (by decide)).2.2
      (by decide) (by decide)
    simpa using h

/-- The scaled floor division of the high-precision path collapses to
the plain floor division: `((n * 10^18) / D) / 10^18 = n / D`. -/
lemma scaled_div_collapse (n D : Nat) :
    n * PRECISION_MULTIPLIER / D / PRECISION_MULTIPLIER = n / D := by
  rw [Nat.div_div_eq_div_mul]
  rw [Nat.mul_comm n PRECISION_MULTIPLIER, Nat.mul_comm D PRECISION_MULTIPLIER]
  exact Nat.mul_div_mul_left n D (by decide)

/-- C10: whenever `principal * apr` and `principal * apr * duration`
fit `u128`, `calculate_interest_precise` returns exactly
`floor(principal * apr * duration / (10000 * 52560))` — the scaled
branch equals the unscaled fallback for every numerator, and the
contract's inline repayment computation agrees with the precise
calculator (returning principal plus that same interest whenever the
final sum fits). -/
theorem interest_precise_eq_plain_floor (p a d : Nat)
    (h1 : p * a ≤ U128MAX) (h2 : p * a * d ≤ U128MAX) :
    calculate_interest_precise p a d =
      .ok (p * a * d / (APR_PRECISION * BLOCKS_PER_YEAR))
  ∧ (∀ n : Nat,
      n * PRECISION_MULTIPLIER / (APR_PRECISION * BLOCKS_PER_YEAR) /
          PRECISION_MULTIPLIER
        = n / (APR_PRECISION * BLOCKS_PER_YEAR))
  ∧ (∀ s : LoanState, s.loanAmount = p → s.apr = a → s.durationBlocks = d →
      p + p * a * d / (APR_PRECISION * BLOCKS_PER_YEAR) ≤ U128MAX →
      calculate_repayment_amount s =
        .ok (p + p * a * d / (APR_PRECISION * BLOCKS_PER_YEAR))) := by
  refine ⟨?_, fun n => scaled_div_collapse n _, ?_⟩
  · by_cases hsc : p * a * d * PRECISION_MULTIPLIER ≤ U128MAX
    · simp [calculate_interest_precise, checkedMul, checkedDiv, h1, h2, hsc,
        APR_PRECISION, BLOCKS_PER_YEAR, scaled_div_collapse]
    · simp [calculate_interest_precise, checkedMul, checkedDiv, h1, h2, hsc,
        APR_PRECISION, BLOCKS_PER_YEAR]
  · intro s hp ha hdur h3
    rw [calculate_repayment_amount_eq, hp, ha, hdur]
    rw [if_pos h1, if_pos h2, if_pos h3]

/-- C10 witness: at principal 1_000_000, APR 500, duration 100 the
precise calculator returns `floor(1_000_000·500·100 / 525_600_000) = 95`
via the theorem, and the repayment computation on a loan with those
terms returns 1_000_095. -/
theorem interest_precise_eq_plain_floor_witness :
    calculate_interest_precise 1000000 500 100 = .ok 95
  ∧ calculate_repayment_amount
      { initialized := true
        stateValue := STATE_LOAN_ACTIVE_CASE2
        collateralToken := ⟨2, 2⟩
        collateralAmount := 10
        loanToken := ⟨2, 4⟩
        loanAmount := 1000000
        durationBlocks := 100
        apr := 500
        loanStartBlock := 840002
        repaymentDeadline := 840102
        debitor := ⟨1, 2⟩
        creditor := ⟨1, 1⟩ } = .ok 1000095 := by
  have h := interest_precise_eq_plain_floor 1000000 500 100 (by decide) (by decide)
  constructor
  · have h1 := h.1
    simpa using h1
  · have h3 := h.2.2
      { initialized := true
        stateValue := STATE_LOAN_ACTIVE_CASE2
        collateralToken := ⟨2, 2⟩
        collateralAmount := 10
        loanToken := ⟨2, 4⟩
        loanAmount := 1000000
        durationBlocks := 100
        apr := 500
        loanStartBlock := 840002
        repaymentDeadline := 840102
        debitor := ⟨1, 2⟩
        creditor := ⟨1, 1⟩ } rfl rfl rfl (by decide)
    simpa using h3

-- ============ Loan lifecycle windows ============

/-- C6: for an active loan, a repay call by the debitor with enough
loan tokens attached succeeds exactly when
`current_block ≤ repayment_deadline` and otherwise fails with
"Loan has defaulted - deadline passed", while a collateral claim by the
creditor succeeds exactly when `current_block > repayment_deadline` and
otherwise fails; at every block exactly one of the two window
conditions holds, so the two windows are disjoint and exhaustive. -/
theorem repay_and_default_windows (s : LoanState) (cb : Nat)
    (incomingR incomingC : List AlkaneTransfer) (r : Nat)
    (hact : s.stateValue = STATE_LOAN_ACTIVE_CASE1 ∨
            s.stateValue = STATE_LOAN_ACTIVE_CASE2)
    (hrep : calculate_repayment_amount s = .ok r)
    (hsum : receivedOf s.loanToken incomingR ≤ U128MAX)
    (henough : r ≤ receivedOf s.loanToken incomingR) :
    (cb ≤ s.repaymentDeadline →
       (repay_loan s ⟨s.debitor, incomingR, cb⟩).isOk = true)
  ∧ (s.repaymentDeadline < cb →
       repay_loan s ⟨s.debitor, incomingR, cb⟩ =
         .error "Loan has defaulted - deadline passed")
  ∧ (s.repaymentDeadline < cb →
       (claim_defaulted_collateral s ⟨s.creditor, incomingC, cb⟩).isOk = true)
  ∧ (cb ≤ s.repaymentDeadline →
       claim_defaulted_collateral s ⟨s.creditor, incomingC, cb⟩ =
         .error "Loan has not defaulted yet - deadline not passed")
  ∧ ((cb ≤ s.repaymentDeadline ∧ ¬ s.repaymentDeadline < cb) ∨
     (s.repaymentDeadline < cb ∧ ¬ cb ≤ s.repaymentDeadline)) := by
  have hg : ¬ (s.stateValue ≠ STATE_LOAN_ACTIVE_CASE1 ∧
               s.stateValue ≠ STATE_LOAN_ACTIVE_CASE2) := by
    rcases hact with h | h <;> simp [h]
  refine ⟨?_, ?_, ?_, ?_, ?_⟩
  · intro hin
    unfold repay_loan
    rw [if_neg hg, if_neg (by simp), if_neg (Nat.not_lt_of_le hin)]
    simp only [hrep]
    rw [collect_incoming_tokens_eq s.loanToken r incomingR hsum,
      if_neg (Nat.not_lt.mpr henough)]
    by_cases hex : r < receivedOf s.loanToken incomingR
    · rw [if_pos hex]; rfl
    · rw [if_neg hex]; rfl
  · intro hout
    unfold repay_loan
    rw [if_neg hg, if_neg (by simp), if_pos hout]
  · intro hout
    unfold claim_defaulted_collateral
    rw [if_neg (by rcases hact with h | h <;> simp [h]), if_neg (by simp),
      if_neg (Nat.not_le_of_lt hout)]
    rfl
  · intro hin
    unfold claim_defaulted_collateral
    rw [if_neg (by rcases hact with h | h <;> simp [h]), if_neg (by simp),
      if_pos hin]
  · rcases Nat.lt_or_ge s.repaymentDeadline cb with h | h
    · exact Or.inr ⟨h, Nat.not_le_of_lt h⟩
    · exact Or.inl ⟨h, Nat.not_lt_of_le h⟩

/-- C6 witness: the window characterization at the concrete active loan
`c3_state` (deadline 845258): repay at block 845258 succeeds and the
defaulted-collateral claim at block 845258 fails, while at block 845259
the claim succeeds and repay fails. -/
theorem repay_and_default_windows_witness :
    (repay_loan c3_state ⟨⟨1, 2⟩, [⟨⟨2, 4⟩, 502500000⟩], 845258⟩).isOk = true
  ∧ repay_loan c3_state ⟨⟨1, 2⟩, [⟨⟨2, 4⟩, 502500000⟩], 845259⟩ =
      .error "Loan has defaulted - deadline passed"
  ∧ (claim_defaulted_collateral c3_state ⟨⟨1, 1⟩, [], 845259⟩).isOk = true
  ∧ claim_defaulted_collateral c3_state ⟨⟨1, 1⟩, [], 845258⟩ =
      .error "Loan has not defaulted yet - deadline not passed" := by
  have h845258 := repay_and_default_windows c3_state 845258
    [⟨⟨2, 4⟩, 502500000⟩] [] 502500000 (Or.inr rfl) (by rfl)
    (by decide) (by decide)
  have h845259 := repay_and_default_windows c3_state 845259
    [⟨⟨2, 4⟩, 502500000⟩] [] 502500000 (Or.inr rfl) (by rfl)
    (by decide) (by decide)
  exact ⟨h845258.1 (by decide), h845259.2.1 (by decide),
    h845259.2.2.1 (by decide), h845258.2.2.2.1 (by decide)⟩

-- ============ Creditor authorization ============

/-- Defaulted active loan of the C7 scenario (deadline 845258). -/
def c7_state : LoanState :=
  { initialized := true
    stateValue := STATE_LOAN_ACTIVE_CASE2
    collateralToken := ⟨2, 2⟩
    collateralAmount := 1000000000
    loanToken := ⟨2, 4⟩
    loanAmount := 500000000
    durationBlocks := 5256
    apr := 500
    loanStartBlock := 840002
    repaymentDeadline := 845258
    debitor := ⟨1, 2⟩
    creditor := ⟨1, 1⟩ }

/-- C7 counterexample: a defaulted-collateral claim whose incoming
transfer list is empty — no capability token of any kind attached —
succeeds when the caller is the stored creditor, refuting that every
call without the authorization token fails with
"Auth token is not in incoming alkanes". -/
theorem claim_defaulted_without_token_succeeds :
    (claim_defaulted_collateral c7_state ⟨⟨1, 1⟩, [], 845259⟩).isOk = true
  ∧ claim_defaulted_collateral c7_state ⟨⟨1, 1⟩, [], 845259⟩ =
      .ok ({ c7_state with stateValue := STATE_LOAN_DEFAULTED },
           ⟨[⟨⟨2, 2⟩, 1000000000⟩], []⟩) := by
  exact ⟨rfl, rfl⟩

/-- C7 (amended): creditor-only actions are authorized solely by
caller identity, not by a capability token: for an active loan past the
deadline, every call whose caller differs from the stored creditor
fails with "Only the creditor can claim defaulted collateral"
(regardless of attached tokens), and a call by the creditor succeeds
with no token required, moves the state to Defaulted, and transfers
the collateral to the caller. -/
theorem claim_defaulted_collateral_caller_auth (s : LoanState)
    (ctx : Context)
    (hact : s.stateValue = STATE_LOAN_ACTIVE_CASE1 ∨
            s.stateValue = STATE_LOAN_ACTIVE_CASE2)
    (hlate : s.repaymentDeadline < ctx.currentBlock) :
    (ctx.caller ≠ s.creditor →
       claim_defaulted_collateral s ctx =
         .error "Only the creditor can claim defaulted collateral")
  ∧ (ctx.caller = s.creditor →
       claim_defaulted_collateral s ctx =
         .ok ({ s with stateValue := STATE_LOAN_DEFAULTED },
              ⟨ctx.incomingAlkanes ++
                 [⟨s.collateralToken, s.collateralAmount⟩], []⟩)) := by
  have hg : ¬ (s.stateValue ≠ STATE_LOAN_ACTIVE_CASE1 ∧
               s.stateValue ≠ STATE_LOAN_ACTIVE_CASE2) := by
    rcases hact with h | h <;> simp [h]
  constructor
  · intro hne
    unfold claim_defaulted_collateral
    rw [if_neg hg, if_pos hne]
  · intro heq
    unfold claim_defaulted_collateral
    rw [if_neg hg, if_neg (by simp [heq]), if_neg (Nat.not_le_of_lt hlate)]
    rfl

/-- C7 witness: at the concrete defaulted loan, a non-creditor caller
(with the deadline passed) is rejected with the caller-mismatch error,
and the creditor's tokenless call succeeds. -/
theorem claim_defaulted_collateral_caller_auth_witness :
    claim_defaulted_collateral c7_state ⟨⟨9, 9⟩, [], 845259⟩ =
      .error "Only the creditor can claim defaulted collateral"
  ∧ claim_defaulted_collateral c7_state ⟨⟨1, 1⟩, [], 845259⟩ =
      .ok ({ c7_state with stateValue := STATE_LOAN_DEFAULTED },
           ⟨[⟨⟨2, 2⟩, 1000000000⟩], []⟩) := by
  constructor
  · exact (claim_defaulted_collateral_caller_auth c7_state
      ⟨⟨9, 9⟩, [], 845259⟩ (Or.inr rfl) (by decide)).1 (by decide)
  · have h := (claim_defaulted_collateral_caller_auth c7_state
      ⟨⟨1, 1⟩, [], 845259⟩ (Or.inr rfl) (by decide)).2 rfl
    simpa using h

-- ============ GetLoanDetails byte layout ============

/-- Every 128-bit little-endian field occupies exactly 16 bytes. -/
lemma leBytes16_length (n : Nat) : (leBytes16 n).length = 16 := by
  simp [leBytes16]

/-- C8: the `GetLoanDetails` payload is exactly 16 bytes for an
uninitialized loan (the state field alone), exactly 144 bytes (nine
16-byte little-endian fields) while waiting for the loan to be taken,
and exactly 176 bytes (the nine fields plus deadline and start block)
while the loan is active. -/
theorem get_loan_details_data_lengths (s : LoanState) :
    (s.stateValue = STATE_UNINITIALIZED →
       (get_loan_details_data s).length = 16)
  ∧ (s.stateValue = STATE_WAITING_FOR_DEBITOR_TAKE →
       (get_loan_details_data s).length = 144)
  ∧ (s.stateValue = STATE_LOAN_ACTIVE_CASE1 ∨
       s.stateValue = STATE_LOAN_ACTIVE_CASE2 →
       (get_loan_details_data s).length = 176) := by
  refine ⟨?_, ?_, ?_⟩
  · intro h
    simp [get_loan_details_data, h, leBytes16_length,
      STATE_UNINITIALIZED]
  · intro h
    simp [get_loan_details_data, h, leBytes16_length,
      STATE_UNINITIALIZED, STATE_WAITING_FOR_DEBITOR_TAKE,
      STATE_LOAN_ACTIVE_CASE1, STATE_LOAN_ACTIVE_CASE2]
  · intro h
    rcases h with h | h <;>
      simp [get_loan_details_data, h, leBytes16_length,
        STATE_UNINITIALIZED, STATE_WAITING_FOR_DEBITOR_TAKE,
        STATE_LOAN_ACTIVE_CASE1, STATE_LOAN_ACTIVE_CASE2]

/-- C8 witness: the payload lengths at three concrete storage states —
fresh (16 bytes), a stored offer waiting to be taken (144 bytes), and
an active loan (176 bytes). -/
theorem get_loan_details_data_lengths_witness :
    (get_loan_details_data freshState).length = 16
  ∧ (get_loan_details_data
       { c3_state with stateValue := STATE_WAITING_FOR_DEBITOR_TAKE }).length
      = 144
  ∧ (get_loan_details_data c3_state).length = 176 :=
  ⟨(get_loan_details_data_lengths freshState).1 rfl,
   (get_loan_details_data_lengths
      { c3_state with stateValue := STATE_WAITING_FOR_DEBITOR_TAKE }).2.1 rfl,
   (get_loan_details_data_lengths c3_state).2.2 (Or.inr rfl)⟩

-- ============ AMM pool initialization ============

/-- C9: pool initialization with deposits `(a, b)` mints exactly
`floor(sqrt(a*b)) - MINIMUM_LIQUIDITY` LP shares (the quantity the
repository's reference function `calc_lp_balance_from_pool_init`
computes) whenever the root exceeds the floor, and when
`floor(sqrt(a*b)) < MINIMUM_LIQUIDITY` the initialization fails while
the reference function yields zero; in particular
`Initialize(1_000_000, 1_000_000)` mints exactly
`1_000_000 - MINIMUM_LIQUIDITY` shares. -/
theorem pool_init_mints_sqrt_minus_floor (ml a b : Nat)
    (hov : a * b ≤ U128MAX) :
    (ml < Nat.sqrt (a * b) →
       pool_initialize_minted ml a b = .ok (Nat.sqrt (a * b) - ml)
     ∧ calc_lp_balance_from_pool_init ml a b = Nat.sqrt (a * b) - ml)
  ∧ (Nat.sqrt (a * b) < ml →
       (pool_initialize_minted ml a b).isOk = false
     ∧ calc_lp_balance_from_pool_init ml a b = 0)
  ∧ (ml < 1000000 →
       pool_initialize_minted ml 1000000 1000000 = .ok (1000000 - ml)
     ∧ calc_lp_balance_from_pool_init ml 1000000 1000000 = 1000000 - ml) := by
  refine ⟨?_, ?_, ?_⟩
  · intro h
    constructor
    · unfold pool_initialize_minted
      rw [if_neg (Nat.not_le_of_lt h)]
    · unfold calc_lp_balance_from_pool_init
      rw [if_neg (Nat.not_lt_of_le (Nat.le_of_lt h))]
  · intro h
    constructor
    · unfold pool_initialize_minted
      rw [if_pos (Nat.le_of_lt h)]
      rfl
    · unfold calc_lp_balance_from_pool_init
      rw [if_pos h]
  · intro h
    have hsq : Nat.sqrt (1000000 * 1000000) = 1000000 := Nat.sqrt_eq 1000000
    constructor
    · unfold pool_initialize_minted
      rw [hsq, if_neg (Nat.not_le_of_lt h)]
    · unfold calc_lp_balance_from_pool_init
      rw [hsq, if_neg (Nat.not_lt_of_le (Nat.le_of_lt h))]

/-- C9 witness: with the customary floor of 1000,
`Initialize(1_000_000, 1_000_000)` mints exactly 999_000 shares and the
reference function computes the same number. -/
theorem pool_init_mints_sqrt_minus_floor_witness :
    pool_initialize_minted 1000 1000000 1000000 = .ok 999000
  ∧ calc_lp_balance_from_pool_init 1000 1000000 1000000 = 999000 := by
  have h := (pool_init_mints_sqrt_minus_floor 1000 1000000 1000000
    (by decide)).2.2 (by decide)
  simpa using h

end AlkanesLending
